import Mathlib

set_option linter.unusedVariables false

/-! Shallow embedding of `src/matmethods/vasp/firetasks/parse_outputs.py`:
the `VaspToDbTask.run_task` and `ToDbTask.run_task` methods.  Pure Python
dict/list manipulation is embedded directly; the external collaborators
(the drone's `assimilate`, `env_chk`, `get_settings`, the `MMDb`
document/GridFS store, `json.dumps`) are repository or library code that is
not under `src/` and are modelled as explicit parameters or, where the
claims need concrete behaviour, as definitions modelled from the spec. -/

/-- JSON-like values held in a task document (the documents are plain
JSON-serialisable Python data produced by the drone). -/
inductive JValue where
  | str (s : String)
  | num (n : Int)
  | arr (l : List JValue)
  | obj (m : List (String × JValue))

/-- A Python dict with string keys, embedded as an ordered association list
(real dicts have unique keys; the operations below preserve that). -/
abbrev Dict := List (String × JValue)

/-- Python `d[k]` / `k in d` lookup: the binding of key `k`, if any. -/
def dictGet (d : Dict) (k : String) : Option JValue :=
  match d with
  | [] => none
  | (k', v') :: rest => if k' = k then some v' else dictGet rest k

/-- Python `d[k] = v`: replace the binding in place, or append a new one. -/
def dictSet (d : Dict) (k : String) (v : JValue) : Dict :=
  match d with
  | [] => [(k, v)]
  | (k', v') :: rest => if k' = k then (k, v) :: rest else (k', v') :: dictSet rest k v

/-- Python `del d[k]`: remove the binding of key `k`. -/
def dictDel (d : Dict) (k : String) : Dict :=
  match d with
  | [] => []
  | (k', v') :: rest => if k' = k then dictDel rest k else (k', v') :: dictDel rest k

/-- The task document (spec: ResultDocument).  `run_task` reads
`task_doc["state"]`, `task_doc.get("task_id", None)` and (optionally)
`task_doc["calcs_reversed"]`, a list of per-calculation dicts; all other
top-level content is carried opaquely in `other`. -/
structure ResultDoc where
  state : String
  task_id : Option JValue
  calcs_reversed : Option (List Dict)
  other : Dict

/-- Error kinds surfaced by a run.  `keyError`/`indexError` embed the
Python exceptions the code can raise; the remaining kinds stand for
failures of the external serialiser / blob store / document store.
`noLocationHistory` is the distinct error kind the spec's §4.1/§7 names
for an empty location history (the code never raises it). -/
inductive RunErr where
  | keyError (k : String)
  | indexError
  | serializationFailed
  | blobStoreUnavailable
  | documentStoreUnavailable
  | noLocationHistory
deriving DecidableEq

/-- One entry of `fw_spec["calc_locs"]` (spec: LocationRecord). -/
structure LocationRecord where
  name : String
  path : String
deriving DecidableEq

/-- The value stored under the task's `calc_loc` key: the code branches on
`isinstance(self["calc_loc"], six.string_types)`, so a string or any
non-string (boolean) value. -/
inductive CalcLocVal where
  | str (s : String)
  | flag (b : Bool)
deriving DecidableEq

/-- Python truthiness of a `calc_loc` value (`elif self.get("calc_loc"):`):
a non-empty string, or the boolean itself. -/
def CalcLocVal.truthy : CalcLocVal → Bool
  | .str s => s != ""
  | .flag b => b

/-- Python truthiness of an optional string (`if not db_file:` and
`if self.get("db_indices"):` style checks). -/
def truthyOptStr : Option String → Bool
  | none => false
  | some s => s != ""

/-- The `calc_dir` resolution shared verbatim by `VaspToDbTask.run_task`
(lines 54-65) and `ToDbTask.run_task` (lines 136-147):
`calc_dir = os.getcwd()`; if `"calc_dir" in self` use it; elif
`self.get("calc_loc")` is truthy: for a string selector scan
`reversed(fw_spec["calc_locs"])` for a record whose `name` equals
`self["calc_loc_name"]` (a `KeyError` when that key is absent; note the
code does not compare against `self["calc_loc"]`), falling through to the
cwd default when no record matches; for a non-string selector take
`fw_spec["calc_locs"][-1]["path"]` (an `IndexError` on an empty list). -/
def resolveCalcDir (calc_dir : Option String) (calc_loc : Option CalcLocVal)
    (calc_loc_name : Option String) (calc_locs : List LocationRecord) (cwd : String) :
    Except RunErr String :=
  match calc_dir with
  | some d => .ok d
  | none =>
    match calc_loc with
    | some cl =>
      match cl.truthy with
      | true =>
        match cl with
        | .str _ =>
          match calc_loc_name with
          | none => .error (.keyError "calc_loc_name")
          | some target =>
            match calc_locs.reverse.find? (fun r => r.name == target) with
            | some r => .ok r.path
            | none => .ok cwd
        | .flag _ =>
          match calc_locs.getLast? with
          | none => .error .indexError
          | some r => .ok r.path
      | false => .ok cwd
    | none => .ok cwd

/-- One call made to the GridFS blob store: `db.insert_gridfs(payload, bucket)`. -/
structure BlobCall where
  payload : String
  bucket : String
deriving DecidableEq

/-- One GridFS offload block of `VaspToDbTask.run_task` (lines 92-98 for
`dos`, lines 99-105 for `bandstructure`): when the field's policy is
enabled and `"calcs_reversed" in task_doc`, serialise
`task_doc["calcs_reversed"][0][f]`, write it to the blob store, then set
`f_compression`, set `f_fs_id` and delete `f` in `calcs_reversed[0]` — the
document is mutated only after the blob write returned.  The serialiser
(`json.dumps` with `MontyEncoder`) and the blob store (`MMDb.insert_gridfs`,
repository code not under `src/`) are passed in as fallible functions.
Returns the resulting document (errors carry the document state at the
point of failure) together with the list of blob-store calls made. -/
def offloadField (enabled : Bool) (f bucket : String)
    (ser : JValue → Except RunErr String)
    (blob : String → String → Except RunErr (String × String))
    (doc : ResultDoc) : (Except (RunErr × ResultDoc) ResultDoc) × List BlobCall :=
  match enabled with
  | false => (.ok doc, [])
  | true =>
    match doc.calcs_reversed with
    | none => (.ok doc, [])
    | some [] => (.error (.indexError, doc), [])
    | some (cr0 :: rest) =>
      match dictGet cr0 f with
      | none => (.ok doc, [])
      | some v =>
        match ser v with
        | .error e => (.error (e, doc), [])
        | .ok payload =>
          match blob payload bucket with
          | .error e => (.error (e, doc), [⟨payload, bucket⟩])
          | .ok (gfsId, ctype) =>
            let cr0a := dictSet cr0 (f ++ "_compression") (JValue.str ctype)
            let cr0b := dictSet cr0a (f ++ "_fs_id") (JValue.str gfsId)
            let cr0c := dictDel cr0b f
            (.ok { doc with calcs_reversed := some (cr0c :: rest) }, [⟨payload, bucket⟩])

/-- Database connection settings returned by `get_settings(db_file)` and
passed to the `MMDb` constructor (line 84: `host`, `port`, `database`,
`collection`, `admin_user`, `admin_password`). -/
structure StoreConfig where
  host : String
  port : Nat
  database : String
  collection : String
  admin_user : Option String
  admin_password : Option String
deriving DecidableEq

/-- The `db_file` value stored in the task: either a literal path or an
indirection key.  Modelled from the spec: `env_chk` (in
`matmethods.utils.utils`, not under `src/`) resolves "a token that may be
(a) a literal configuration value, or (b) a key to resolve from a
runtime-provided key/value context at call time". -/
inductive ConfigToken where
  | lit (s : String)
  | key (k : String)
deriving DecidableEq

/-- Modelled from the spec: `env_chk(self.get('db_file'), fw_spec)`
(`matmethods.utils.utils.env_chk`, not under `src/`): `None` passes
through, a literal token is returned verbatim, an indirection key is
looked up in the runtime context. -/
def envChk (tok : Option ConfigToken) (ctx : String → Option String) : Option String :=
  match tok with
  | none => none
  | some (.lit s) => some s
  | some (.key k) => ctx k

/-- The externally observable side effects of one `run_task` call:
document-store connections opened (`MMDb(...)`), index builds
(`db.build(indices=...)`), GridFS blob writes (`db.insert_gridfs`),
document inserts (`db.insert`) and local files written
(`open("task.json", "w")`). -/
structure Effects where
  blobCalls : List BlobCall
  dbConnects : List StoreConfig
  dbBuilds : List (List String)
  dbInserts : List ResultDoc
  filesWritten : List (String × String)

/-- No side effects yet. -/
def Effects.empty : Effects :=
  { blobCalls := [], dbConnects := [], dbBuilds := [], dbInserts := [], filesWritten := [] }

/-- The behaviour of the connected `MMDb` store (repository code in
`matmethods.vasp.database`, not under `src/`): the responses of
`insert_gridfs(payload, bucket)` and `insert(task_doc)`, both fallible. -/
structure DbConn where
  insertGridfs : String → String → Except RunErr (String × String)
  insertDoc : ResultDoc → Except RunErr String

/-- Modelled from the spec: a concrete well-behaved `MMDb` store
(`matmethods.vasp.database.MMDb`, not under `src/`).  Per spec §4.3/§6,
`insert` "obtain[s] an assigned identifier" and blob `insert` returns
`(storeId, compressionTag)`; this instance assigns the non-empty
identifier `"oid" ++ toString n` and reports `zlib` compression. -/
def specDb (n : Nat) : DbConn :=
  { insertGridfs := fun _ _ => .ok ("gfs" ++ toString n, "zlib"),
    insertDoc := fun _ => .ok ("oid" ++ toString n) }

/-- What `VaspToDbTask.run_task` reports back: the returned
`FWAction(stored_data={"task_id": task_doc.get("task_id", None)},
defuse_children=(task_doc["state"] != "successful"))`, plus the
identifier obtained from `db.insert` (`t_id`, line 107; `none` on the
local-file path, which assigns no identifier). -/
structure RunOutput where
  stored_task_id : Option JValue
  defuse_children : Bool
  assigned_id : Option String

/-- The task parameters of `VaspToDbTask` (its `optional_params`, plus the
undeclared `calc_loc_name` key the code reads at line 61). -/
structure VaspToDbParams where
  calc_dir : Option String
  calc_loc : Option CalcLocVal
  calc_loc_name : Option String
  parse_dos : Bool
  bandstructure_mode : Option String
  additional_fields : Option Dict
  db_file : Option ConfigToken
  build_db : Bool
  db_indices : Option (List String)

/-- The run-time collaborators of `VaspToDbTask.run_task`: the working
directory, `fw_spec["calc_locs"]`, the `env_chk` context, `get_settings`
(config file lookup, external), the drone's `assimilate` (VaspDrone, not
under `src/`; its construction from `additional_fields` / `parse_dos` /
`bandstructure_mode` is folded into this opaque function), the payload
serialiser (`json.dumps` with `MontyEncoder`), the connected store
behaviour, and the document serialiser for the local file
(`json.dumps(task_doc, default=DATETIME_HANDLER)`). -/
structure RunEnv where
  cwd : String
  calc_locs : List LocationRecord
  ctx : String → Option String
  settings : String → StoreConfig
  assimilate : String → ResultDoc
  ser : JValue → Except RunErr String
  db : DbConn
  dumpDoc : ResultDoc → String

/-- The index-build effect (lines 88-90): `db.build(indices=...)` runs iff
`self.get("build_db", False)` and `self.get("db_indices")` is truthy. -/
def buildIndicesEffect (build_db : Bool) (db_indices : Option (List String)) :
    List (List String) :=
  match build_db with
  | false => []
  | true =>
    match db_indices with
    | none => []
    | some l => if l.isEmpty then [] else [l]

/-- Lines 69-110 of `VaspToDbTask.run_task`, after the calc dir has been
resolved and the drone has assimilated it: `if not db_file:` write the
serialised document to `task.json`; else connect, optionally build
indices, offload `dos` and `bandstructure` to GridFS, insert the
document, and in both branches return the `FWAction`. -/
def vaspPersistPhase (p : VaspToDbParams) (env : RunEnv) (task_doc : ResultDoc) :
    Except RunErr RunOutput × Effects :=
  match truthyOptStr (envChk p.db_file env.ctx) with
  | false =>
    (.ok { stored_task_id := task_doc.task_id,
           defuse_children := task_doc.state != "successful",
           assigned_id := none },
     { Effects.empty with filesWritten := [("task.json", env.dumpDoc task_doc)] })
  | true =>
    let cfg := env.settings ((envChk p.db_file env.ctx).getD "")
    let bEff := buildIndicesEffect p.build_db p.db_indices
    match offloadField p.parse_dos "dos" "dos_fs" env.ser env.db.insertGridfs task_doc with
    | (.error (e, _), calls1) =>
      (.error e, { Effects.empty with blobCalls := calls1, dbConnects := [cfg], dbBuilds := bEff })
    | (.ok doc1, calls1) =>
      match offloadField (truthyOptStr p.bandstructure_mode) "bandstructure"
          "bandstructure_fs" env.ser env.db.insertGridfs doc1 with
      | (.error (e, _), calls2) =>
        (.error e, { Effects.empty with blobCalls := calls1 ++ calls2, dbConnects := [cfg], dbBuilds := bEff })
      | (.ok doc2, calls2) =>
        match env.db.insertDoc doc2 with
        | .error e =>
          (.error e, { Effects.empty with blobCalls := calls1 ++ calls2, dbConnects := [cfg], dbBuilds := bEff })
        | .ok tid =>
          (.ok { stored_task_id := doc2.task_id, defuse_children := doc2.state != "successful", assigned_id := some tid },
           { blobCalls := calls1 ++ calls2, dbConnects := [cfg], dbBuilds := bEff, dbInserts := [doc2], filesWritten := [] })

/-- `VaspToDbTask.run_task` (lines 53-110): resolve the calc dir,
assimilate it, then persist and report. -/
def vaspToDbRun (p : VaspToDbParams) (env : RunEnv) : Except RunErr RunOutput × Effects :=
  match resolveCalcDir p.calc_dir p.calc_loc p.calc_loc_name env.calc_locs env.cwd with
  | .error e => (.error e, Effects.empty)
  | .ok calcDir => vaspPersistPhase p env (env.assimilate calcDir)

/-- A drone instance as `ToDbTask` sees it: reconstructing from its class
(`self['drone'].__class__()`, line 157) yields a fresh instance with
default construction arguments. -/
structure DroneInstance where
  assimilateFn : String → ResultDoc

/-- A drone class: what `__class__()` (no-argument construction) yields. -/
structure DroneClass where
  construct : DroneInstance

/-- The drone object passed in the task parameters: it carries its class
and its own (possibly configured) assimilation behaviour, which
`run_task` never uses. -/
structure Drone where
  cls : DroneClass
  assimilateFn : String → ResultDoc

/-- The task parameters of `ToDbTask` (`required_params = ["drone"]` plus
its `optional_params`, plus the undeclared `calc_loc_name` key read at
line 143). -/
structure ToDbParams where
  drone : Drone
  db_file : Option ConfigToken
  calc_dir : Option String
  calc_loc : Option CalcLocVal
  calc_loc_name : Option String
  additional_fields : Option Dict
  options : Option Dict

/-- The run-time collaborators of `ToDbTask.run_task` (no offload, so no
payload serialiser is needed). -/
structure ToDbEnv where
  cwd : String
  calc_locs : List LocationRecord
  ctx : String → Option String
  settings : String → StoreConfig
  db : DbConn
  dumpDoc : ResultDoc → String

/-- Lines 153-173 of `ToDbTask.run_task` after assimilation: `if not
db_file:` write `task.json`, else connect and insert; return the
`FWAction`.  No GridFS offload and no index build exist on this path. -/
def toDbPersistPhase (p : ToDbParams) (env : ToDbEnv) (task_doc : ResultDoc) :
    Except RunErr RunOutput × Effects :=
  match truthyOptStr (envChk p.db_file env.ctx) with
  | false =>
    (.ok { stored_task_id := task_doc.task_id,
           defuse_children := task_doc.state != "successful",
           assigned_id := none },
     { Effects.empty with filesWritten := [("task.json", env.dumpDoc task_doc)] })
  | true =>
    let cfg := env.settings ((envChk p.db_file env.ctx).getD "")
    match env.db.insertDoc task_doc with
    | .error e => (.error e, { Effects.empty with dbConnects := [cfg] })
    | .ok tid =>
      (.ok { stored_task_id := task_doc.task_id,
             defuse_children := task_doc.state != "successful",
             assigned_id := some tid },
       { Effects.empty with dbConnects := [cfg], dbInserts := [task_doc] })

/-- `ToDbTask.run_task` (lines 135-173): resolve the calc dir exactly as
`VaspToDbTask` does, construct a fresh drone from the class of the
passed-in drone instance with no arguments (line 157:
`self['drone'].__class__()` — the `options` and `additional_fields`
parameters are never consulted), assimilate, persist and report. -/
def toDbRun (p : ToDbParams) (env : ToDbEnv) : Except RunErr RunOutput × Effects :=
  match resolveCalcDir p.calc_dir p.calc_loc p.calc_loc_name env.calc_locs env.cwd with
  | .error e => (.error e, Effects.empty)
  | .ok calcDir => toDbPersistPhase p env (p.drone.cls.construct.assimilateFn calcDir)

/-- Concrete calc-step dict used by the witnesses: a `dos` payload plus an
unrelated key. -/
def wDict : Dict := [("dos", JValue.num 7), ("nsites", JValue.num 2)]

/-- Concrete successful task document with one calculation step. -/
def wDoc : ResultDoc :=
  { state := "successful", task_id := some (JValue.str "t1"),
    calcs_reversed := some [wDict], other := [] }

/-- `wDict` after the `dos` offload with blob response `("gid1", "zlib")`. -/
def wDict' : Dict :=
  [("nsites", JValue.num 2), ("dos_compression", JValue.str "zlib"),
   ("dos_fs_id", JValue.str "gid1")]

/-- `wDoc` after the `dos` offload. -/
def wDoc' : ResultDoc := { wDoc with calcs_reversed := some [wDict'] }

/-- Concrete document without a `calcs_reversed` key. -/
def wDocNoCalcs : ResultDoc :=
  { state := "successful", task_id := none, calcs_reversed := none, other := [] }

/-- Concrete document whose `calcs_reversed` is the empty list. -/
def wDocEmptyCalcs : ResultDoc :=
  { state := "error", task_id := none, calcs_reversed := some [], other := [] }

/-- A serialiser that always succeeds. -/
def wSerOk : JValue → Except RunErr String := fun _ => .ok "PAYLOAD"

/-- A blob store that always succeeds. -/
def wBlobOk : String → String → Except RunErr (String × String) :=
  fun _ _ => .ok ("gid1", "zlib")

/-- A blob store that always fails. -/
def wBlobFail : String → String → Except RunErr (String × String) :=
  fun _ _ => .error .blobStoreUnavailable

/-- Concrete store settings. -/
def wCfg : StoreConfig :=
  { host := "localhost", port := 27017, database := "vasp", collection := "tasks",
    admin_user := none, admin_password := none }

/-- Concrete run environment (its store behaviour is `specDb 0`). -/
def wEnv : RunEnv :=
  { cwd := "/cwd", calc_locs := [], ctx := fun _ => none, settings := fun _ => wCfg,
    assimilate := fun _ => wDoc, ser := wSerOk, db := specDb 0, dumpDoc := fun _ => "DOC" }

/-- Concrete `VaspToDbTask` parameters without a `db_file` (local path). -/
def wParamsLocal : VaspToDbParams :=
  { calc_dir := some "/calc", calc_loc := none, calc_loc_name := none,
    parse_dos := false, bandstructure_mode := none, additional_fields := none,
    db_file := none, build_db := false, db_indices := none }

/-- Concrete `VaspToDbTask` parameters with a literal `db_file` (store path). -/
def wParamsDb : VaspToDbParams := { wParamsLocal with db_file := some (.lit "db.json") }

/-- The run output on the local path for `wDoc`. -/
def wOutLocal : RunOutput :=
  { stored_task_id := some (JValue.str "t1"), defuse_children := false, assigned_id := none }

/-- The run output on the store path for `wDoc` against `specDb 0`. -/
def wOutDb : RunOutput :=
  { stored_task_id := some (JValue.str "t1"), defuse_children := false,
    assigned_id := some "oid0" }

/-- Concrete drone whose class constructs an assimilator returning `wDoc`;
the instance itself is configured with a different behaviour, which
`ToDbTask.run_task` ignores. -/
def wDrone : Drone :=
  { cls := { construct := { assimilateFn := fun _ => wDoc } },
    assimilateFn := fun _ => wDocNoCalcs }

/-- Concrete `ToDbTask` parameters without a `db_file`. -/
def wToDbParams : ToDbParams :=
  { drone := wDrone, db_file := none, calc_dir := some "/calc", calc_loc := none,
    calc_loc_name := none, additional_fields := none, options := none }

/-- Concrete `ToDbTask` environment. -/
def wToDbEnv : ToDbEnv :=
  { cwd := "/cwd", calc_locs := [], ctx := fun _ => none, settings := fun _ => wCfg,
    db := specDb 0, dumpDoc := fun _ => "DOC" }

/-- The rewrite `offloadField` performs on the first calculation step for
field `f` when the blob store returned `(gid, ct)`: set `f_compression`,
set `f_fs_id`, delete `f`. -/
def offloadRewrite (cr0 : Dict) (f gid ct : String) : Dict :=
  dictDel (dictSet (dictSet cr0 (f ++ "_compression") (JValue.str ct)) (f ++ "_fs_id") (JValue.str gid)) f

/-- Lookup after `dictSet` at the written key. -/
theorem dictGet_dictSet_self (d : Dict) (k : String) (v : JValue) :
    dictGet (dictSet d k v) k = some v := by
  induction d with
  | nil => simp [dictSet, dictGet]
  | cons p rest ih =>
    obtain ⟨k', v'⟩ := p
    by_cases h : k' = k
    · simp [dictSet, dictGet, h]
    · simp [dictSet, dictGet, h, ih]

/-- Lookup after `dictSet` at any other key. -/
theorem dictGet_dictSet_of_ne (d : Dict) (k k2 : String) (v : JValue) (h : k2 ≠ k) :
    dictGet (dictSet d k v) k2 = dictGet d k2 := by
  induction d with
  | nil => simp [dictSet, dictGet, Ne.symm h]
  | cons p rest ih =>
    obtain ⟨k', v'⟩ := p
    by_cases hk : k' = k
    · subst hk
      simp [dictSet, dictGet, Ne.symm h]
    · simp only [dictSet, if_neg hk]
      by_cases hk2 : k' = k2
      · simp [dictGet, hk2]
      · simp [dictGet, hk2, ih]

/-- Lookup after `dictDel` at the deleted key. -/
theorem dictGet_dictDel_self (d : Dict) (k : String) :
    dictGet (dictDel d k) k = none := by
  induction d with
  | nil => simp [dictDel, dictGet]
  | cons p rest ih =>
    obtain ⟨k', v'⟩ := p
    by_cases h : k' = k
    · simp [dictDel, h, ih]
    · simp [dictDel, dictGet, h, ih]

/-- Lookup after `dictDel` at any other key. -/
theorem dictGet_dictDel_of_ne (d : Dict) (k k2 : String) (h : k2 ≠ k) :
    dictGet (dictDel d k) k2 = dictGet d k2 := by
  induction d with
  | nil => simp [dictDel]
  | cons p rest ih =>
    obtain ⟨k', v'⟩ := p
    by_cases hk : k' = k
    · subst hk
      simp [dictDel, dictGet, Ne.symm h, ih]
    · by_cases hk2 : k' = k2
      · simp [dictDel, dictGet, hk, hk2, h]
      · simp [dictDel, dictGet, hk, hk2, ih]

/-- The length of a string concatenation. -/
theorem string_length_append (s t : String) : (s ++ t).length = s.length + t.length := by
  cases s
  cases t
  exact List.length_append _ _

/-- Strings of different lengths differ. -/
theorem string_ne_of_length_ne (s t : String) (h : s.length ≠ t.length) : s ≠ t :=
  fun he => h (congrArg String.length he)

/-- A field name differs from its `_fs_id` reference key. -/
theorem field_ne_fs_id (f : String) : f ≠ f ++ "_fs_id" := by
  apply string_ne_of_length_ne
  rw [string_length_append]
  have h6 : "_fs_id".length = 6 := rfl
  omega

/-- A field name differs from its `_compression` reference key. -/
theorem field_ne_compression (f : String) : f ≠ f ++ "_compression" := by
  apply string_ne_of_length_ne
  rw [string_length_append]
  have h12 : "_compression".length = 12 := rfl
  omega

/-- The two reference keys of a field differ from each other. -/
theorem fs_id_ne_compression (f : String) : f ++ "_fs_id" ≠ f ++ "_compression" := by
  apply string_ne_of_length_ne
  rw [string_length_append, string_length_append]
  have h6 : "_fs_id".length = 6 := rfl
  have h12 : "_compression".length = 12 := rfl
  omega

/-- Concatenating onto a non-empty string stays non-empty. -/
theorem string_append_ne_empty (s t : String) (h : s ≠ "") : s ++ t ≠ "" := by
  apply string_ne_of_length_ne
  rw [string_length_append]
  have h0 : ("" : String).length = 0 := rfl
  have hs : s.length ≠ 0 := by
    intro hz
    apply h
    cases s with
    | mk ds =>
      cases ds with
      | nil => rfl
      | cons c cs => simp [String.length] at hz
  omega

/-- Inversion of a successful `offloadField`: either the document is
returned unchanged or exactly the reference-pair rewrite of the first
calculation step was performed. -/
theorem offloadField_ok_inv (e : Bool) (f bucket : String)
    (ser : JValue → Except RunErr String)
    (blob : String → String → Except RunErr (String × String))
    (doc doc' : ResultDoc) (calls : List BlobCall)
    (hok : offloadField e f bucket ser blob doc = (.ok doc', calls)) :
    doc' = doc ∨ ∃ cr0 rest gid ct,
      doc.calcs_reversed = some (cr0 :: rest) ∧
      doc' = { doc with calcs_reversed := some (offloadRewrite cr0 f gid ct :: rest) } := by
  cases e with
  | false =>
    simp only [offloadField, Prod.mk.injEq, Except.ok.injEq] at hok
    exact Or.inl hok.1.symm
  | true =>
    obtain ⟨st, tid, cr, oth⟩ := doc
    cases cr with
    | none =>
      simp only [offloadField, Prod.mk.injEq, Except.ok.injEq] at hok
      exact Or.inl hok.1.symm
    | some l =>
      cases l with
      | nil => simp [offloadField] at hok
      | cons cr0 rest =>
        simp only [offloadField] at hok
        cases hg : dictGet cr0 f with
        | none =>
          simp only [hg, Prod.mk.injEq, Except.ok.injEq] at hok
          exact Or.inl hok.1.symm
        | some v =>
          simp only [hg] at hok
          cases hs : ser v with
          | error e1 => simp [hs] at hok
          | ok payload =>
            simp only [hs] at hok
            cases hb : blob payload bucket with
            | error e1 => simp [hb] at hok
            | ok pr =>
              obtain ⟨gid, ct⟩ := pr
              simp only [hb, Prod.mk.injEq, Except.ok.injEq] at hok
              exact Or.inr ⟨cr0, rest, gid, ct, rfl, hok.1.symm⟩

/-- A successful `offloadField` never changes the document's `state` or
`task_id`. -/
theorem offloadField_ok_preserves (e : Bool) (f bucket : String)
    (ser : JValue → Except RunErr String)
    (blob : String → String → Except RunErr (String × String))
    (doc doc' : ResultDoc) (calls : List BlobCall)
    (hok : offloadField e f bucket ser blob doc = (.ok doc', calls)) :
    doc'.state = doc.state ∧ doc'.task_id = doc.task_id := by
  rcases offloadField_ok_inv e f bucket ser blob doc doc' calls hok with h | ⟨cr0, rest, gid, ct, hcr, h⟩
  · subst h
    exact ⟨rfl, rfl⟩
  · subst h
    exact ⟨rfl, rfl⟩

/-- Inversion of a successful `offloadField` when the field is present in
a non-empty `calcs_reversed`: the reference-pair rewrite happened. -/
theorem offloadField_ok_present (f bucket : String)
    (ser : JValue → Except RunErr String)
    (blob : String → String → Except RunErr (String × String))
    (doc doc' : ResultDoc) (cr0 : Dict) (rest : List Dict)
    (calls : List BlobCall) (v : JValue)
    (hcr : doc.calcs_reversed = some (cr0 :: rest))
    (hv : dictGet cr0 f = some v)
    (hok : offloadField true f bucket ser blob doc = (.ok doc', calls)) :
    ∃ gid ct, doc' = { doc with calcs_reversed := some (offloadRewrite cr0 f gid ct :: rest) } := by
  simp only [offloadField, hcr, hv] at hok
  cases hs : ser v with
  | error e1 => simp [hs] at hok
  | ok payload =>
    simp only [hs] at hok
    cases hb : blob payload bucket with
    | error e1 => simp [hb] at hok
    | ok pr =>
      obtain ⟨gid, ct⟩ := pr
      simp only [hb, Prod.mk.injEq, Except.ok.injEq] at hok
      exact ⟨gid, ct, hok.1.symm⟩

/-- A failing `offloadField` leaves the document exactly as it was: every
error is raised before any mutation. -/
theorem offloadField_error_inv (e : Bool) (f bucket : String)
    (ser : JValue → Except RunErr String)
    (blob : String → String → Except RunErr (String × String))
    (doc d : ResultDoc) (er : RunErr) (calls : List BlobCall)
    (h : offloadField e f bucket ser blob doc = (.error (er, d), calls)) : d = doc := by
  cases e with
  | false => simp [offloadField] at h
  | true =>
    obtain ⟨st, tid, cr, oth⟩ := doc
    cases cr with
    | none => simp [offloadField] at h
    | some l =>
      cases l with
      | nil =>
        simp only [offloadField, Prod.mk.injEq, Except.error.injEq] at h
        exact h.1.2.symm
      | cons cr0 rest =>
        simp only [offloadField] at h
        cases hg : dictGet cr0 f with
        | none => simp [hg] at h
        | some v =>
          simp only [hg] at h
          cases hs : ser v with
          | error e1 =>
            simp only [hs, Prod.mk.injEq, Except.error.injEq] at h
            exact h.1.2.symm
          | ok payload =>
            simp only [hs] at h
            cases hb : blob payload bucket with
            | error e1 =>
              simp only [hb, Prod.mk.injEq, Except.error.injEq] at h
              exact h.1.2.symm
            | ok pr =>
              obtain ⟨gid, ct⟩ := pr
              simp [hb] at h

/-- Whenever `vaspPersistPhase` completes, the `defuse_children` flag of
the reported `FWAction` is computed from the (offload-invariant) `state`
field of the assimilated document, on both persistence paths. -/
theorem vaspPersistPhase_ok_defuse (p : VaspToDbParams) (env : RunEnv)
    (d : ResultDoc) (out : RunOutput)
    (h : (vaspPersistPhase p env d).fst = .ok out) :
    out.defuse_children = (d.state != "successful") := by
  simp only [vaspPersistPhase] at h
  cases ht : truthyOptStr (envChk p.db_file env.ctx) with
  | false =>
    rw [ht] at h
    simp only [Except.ok.injEq] at h
    rw [← h]
  | true =>
    rw [ht] at h
    simp only [] at h
    cases ho1 : offloadField p.parse_dos "dos" "dos_fs" env.ser env.db.insertGridfs d with
    | mk r1 calls1 =>
      rw [ho1] at h
      cases r1 with
      | error ep => obtain ⟨e1, d1⟩ := ep; simp at h
      | ok doc1 =>
        simp only [] at h
        cases ho2 : offloadField (truthyOptStr p.bandstructure_mode) "bandstructure"
            "bandstructure_fs" env.ser env.db.insertGridfs doc1 with
        | mk r2 calls2 =>
          rw [ho2] at h
          cases r2 with
          | error ep => obtain ⟨e2, d2⟩ := ep; simp at h
          | ok doc2 =>
            simp only [] at h
            cases hi : env.db.insertDoc doc2 with
            | error e3 => rw [hi] at h; simp at h
            | ok tid =>
              rw [hi] at h
              simp only [Except.ok.injEq] at h
              rw [← h]
              have h1 := offloadField_ok_preserves _ _ _ _ _ _ _ _ ho1
              have h2 := offloadField_ok_preserves _ _ _ _ _ _ _ _ ho2
              simp [h1.1, h2.1]

/-- Whenever `toDbPersistPhase` completes, `defuse_children` is likewise
computed from the document's `state` field, on both persistence paths. -/
theorem toDbPersistPhase_ok_defuse (p : ToDbParams) (env : ToDbEnv)
    (d : ResultDoc) (out : RunOutput)
    (h : (toDbPersistPhase p env d).fst = .ok out) :
    out.defuse_children = (d.state != "successful") := by
  simp only [toDbPersistPhase] at h
  cases ht : truthyOptStr (envChk p.db_file env.ctx) with
  | false =>
    rw [ht] at h
    simp only [Except.ok.injEq] at h
    rw [← h]
  | true =>
    rw [ht] at h
    simp only [] at h
    cases hi : env.db.insertDoc d with
    | error e3 => rw [hi] at h; simp at h
    | ok tid =>
      rw [hi] at h
      simp only [Except.ok.injEq] at h
      rw [← h]

/-- On the local-file path (`db_file` falsy) `vaspPersistPhase` reports no
assigned identifier. -/
theorem vaspPersistPhase_local_assigned (p : VaspToDbParams) (env : RunEnv)
    (d : ResultDoc) (out : RunOutput)
    (ht : truthyOptStr (envChk p.db_file env.ctx) = false)
    (h : (vaspPersistPhase p env d).fst = .ok out) :
    out.assigned_id = none := by
  simp only [vaspPersistPhase, ht] at h
  simp only [Except.ok.injEq] at h
  rw [← h]

/-- On the store path against the spec-modelled store `specDb n`, a
completed `vaspPersistPhase` reports exactly the identifier the store's
insert returned. -/
theorem vaspPersistPhase_store_assigned (p : VaspToDbParams) (env : RunEnv)
    (d : ResultDoc) (out : RunOutput) (n : Nat)
    (hdb : env.db = specDb n)
    (ht : truthyOptStr (envChk p.db_file env.ctx) = true)
    (h : (vaspPersistPhase p env d).fst = .ok out) :
    out.assigned_id = some ("oid" ++ toString n) := by
  simp only [vaspPersistPhase, ht] at h
  cases ho1 : offloadField p.parse_dos "dos" "dos_fs" env.ser env.db.insertGridfs d with
  | mk r1 calls1 =>
    rw [ho1] at h
    cases r1 with
    | error ep => obtain ⟨e1, d1⟩ := ep; simp at h
    | ok doc1 =>
      simp only [] at h
      cases ho2 : offloadField (truthyOptStr p.bandstructure_mode) "bandstructure"
          "bandstructure_fs" env.ser env.db.insertGridfs doc1 with
      | mk r2 calls2 =>
        rw [ho2] at h
        cases r2 with
        | error ep => obtain ⟨e2, d2⟩ := ep; simp at h
        | ok doc2 =>
          rw [hdb] at h
          simp only [specDb, Except.ok.injEq] at h
          rw [← h]

/-- Claim C1: for every ResultDocument with a non-empty `calcs_reversed`,
after `offloadField` completes for an enabled field present in
`calcs_reversed[0]`, that step contains exactly one of the inline field /
the `_fs_id`+`_compression` reference pair — here: the inline field is
gone and both reference keys are present (never both forms, never
neither). -/
theorem offload_field_inline_xor (f bucket : String)
    (ser : JValue → Except RunErr String)
    (blob : String → String → Except RunErr (String × String))
    (doc doc' : ResultDoc) (cr0 cr0' : Dict) (rest rest' : List Dict)
    (calls : List BlobCall) (v : JValue)
    (hcr : doc.calcs_reversed = some (cr0 :: rest))
    (hv : dictGet cr0 f = some v)
    (hok : offloadField true f bucket ser blob doc = (.ok doc', calls))
    (hcr' : doc'.calcs_reversed = some (cr0' :: rest')) :
    dictGet cr0' f = none
    ∧ (dictGet cr0' (f ++ "_fs_id")).isSome = true
    ∧ (dictGet cr0' (f ++ "_compression")).isSome = true := by
  obtain ⟨gid, ct, hd⟩ :=
    offloadField_ok_present f bucket ser blob doc doc' cr0 rest calls v hcr hv hok
  subst hd
  simp only [Option.some.injEq, List.cons.injEq] at hcr'
  obtain ⟨hX, hrest⟩ := hcr'
  subst hX
  simp only [offloadRewrite]
  refine ⟨dictGet_dictDel_self _ f, ?_, ?_⟩
  · rw [dictGet_dictDel_of_ne _ f _ (Ne.symm (field_ne_fs_id f)), dictGet_dictSet_self]
    rfl
  · rw [dictGet_dictDel_of_ne _ f _ (Ne.symm (field_ne_compression f)),
      dictGet_dictSet_of_ne _ _ _ _ (Ne.symm (fs_id_ne_compression f)), dictGet_dictSet_self]
    rfl

/-- Witness for C1 at a concrete input: offloading `dos` from `wDoc`
turned the inline `dos` into its reference pair. -/
theorem offload_field_inline_xor_witness :
    dictGet wDict' "dos" = none
    ∧ (dictGet wDict' ("dos" ++ "_fs_id")).isSome = true
    ∧ (dictGet wDict' ("dos" ++ "_compression")).isSome = true :=
  offload_field_inline_xor "dos" "dos_fs" wSerOk wBlobOk wDoc wDoc' wDict wDict' [] []
    [⟨"PAYLOAD", "dos_fs"⟩] (JValue.num 7) rfl rfl rfl rfl

/-- Claim C10: offloading a present enabled field rewrites only that
field's key and its two reference keys inside `calcs_reversed[0]`; every
other key of `calcs_reversed[0]`, the remaining calculation steps, and
every other top-level field of the document (`state`, `task_id`, the rest
of the document) are unchanged. -/
theorem offload_frame_property (f bucket : String)
    (ser : JValue → Except RunErr String)
    (blob : String → String → Except RunErr (String × String))
    (doc doc' : ResultDoc) (cr0 cr0' : Dict) (rest rest' : List Dict)
    (calls : List BlobCall) (v : JValue)
    (hcr : doc.calcs_reversed = some (cr0 :: rest))
    (hv : dictGet cr0 f = some v)
    (hok : offloadField true f bucket ser blob doc = (.ok doc', calls))
    (hcr' : doc'.calcs_reversed = some (cr0' :: rest')) :
    doc'.state = doc.state ∧ doc'.task_id = doc.task_id ∧ doc'.other = doc.other
    ∧ rest' = rest
    ∧ ∀ k : String, k ≠ f → k ≠ f ++ "_fs_id" → k ≠ f ++ "_compression" →
        dictGet cr0' k = dictGet cr0 k := by
  obtain ⟨gid, ct, hd⟩ :=
    offloadField_ok_present f bucket ser blob doc doc' cr0 rest calls v hcr hv hok
  subst hd
  simp only [Option.some.injEq, List.cons.injEq] at hcr'
  obtain ⟨hX, hrest⟩ := hcr'
  subst hX
  refine ⟨rfl, rfl, rfl, hrest.symm, ?_⟩
  intro k hk1 hk2 hk3
  simp only [offloadRewrite]
  rw [dictGet_dictDel_of_ne _ _ _ hk1, dictGet_dictSet_of_ne _ _ _ _ hk2,
    dictGet_dictSet_of_ne _ _ _ _ hk3]

/-- Witness for C10 at a concrete input: the unrelated `nsites` key of
`calcs_reversed[0]` is untouched by the `dos` offload. -/
theorem offload_frame_property_witness :
    dictGet wDict' "nsites" = dictGet wDict "nsites" :=
  (offload_frame_property "dos" "dos_fs" wSerOk wBlobOk wDoc wDoc' wDict wDict' [] []
    [⟨"PAYLOAD", "dos_fs"⟩] (JValue.num 7) rfl rfl rfl rfl).2.2.2.2 "nsites"
    (by decide) (by decide) (by decide)

/-- Claim C5: if any step of an enabled offload fails (serialisation or
the blob-store write, including the index error on an empty
`calcs_reversed`), the document carried out of the failing offload is
exactly the input document: the code mutates the document only after
`insert_gridfs` has returned. -/
theorem offload_failure_doc_unchanged (e : Bool) (f bucket : String)
    (ser : JValue → Except RunErr String)
    (blob : String → String → Except RunErr (String × String))
    (doc d : ResultDoc) (er : RunErr) (calls : List BlobCall)
    (h : offloadField e f bucket ser blob doc = (.error (er, d), calls)) : d = doc :=
  offloadField_error_inv e f bucket ser blob doc d er calls h

/-- Witness for C5 at a concrete input: the blob store fails and the
document is unchanged. -/
theorem offload_failure_doc_unchanged_witness :
    offloadField true "dos" "dos_fs" wSerOk wBlobFail wDoc
      = (.error (.blobStoreUnavailable, wDoc), [⟨"PAYLOAD", "dos_fs"⟩])
    ∧ wDoc = wDoc :=
  ⟨rfl, offload_failure_doc_unchanged true "dos" "dos_fs" wSerOk wBlobFail wDoc wDoc
    .blobStoreUnavailable [⟨"PAYLOAD", "dos_fs"⟩] rfl⟩

/-- Claim C6, amended: with `calcs_reversed` missing the offload of an
enabled field is indeed a no-op (document unchanged, no blob call, no
error); but with `calcs_reversed` present and *empty* the code indexes
`task_doc["calcs_reversed"][0]` and raises an IndexError (still without a
blob call and without changing the document). -/
theorem offload_missing_vs_empty_calcs (f bucket : String)
    (ser : JValue → Except RunErr String)
    (blob : String → String → Except RunErr (String × String))
    (doc : ResultDoc) :
    (doc.calcs_reversed = none → offloadField true f bucket ser blob doc = (.ok doc, []))
    ∧ (doc.calcs_reversed = some [] →
        offloadField true f bucket ser blob doc = (.error (.indexError, doc), [])) := by
  constructor
  · intro hn
    simp [offloadField, hn]
  · intro he
    simp [offloadField, he]

/-- Counterexample to C6 as stated: on a document whose `calcs_reversed`
is the empty list, the offload is not a no-op — it raises an
IndexError-equivalent instead of returning the document unchanged. -/
theorem offload_empty_calcs_counterexample :
    offloadField true "dos" "dos_fs" wSerOk wBlobOk wDocEmptyCalcs
      = (.error (.indexError, wDocEmptyCalcs), [])
    ∧ (Except.error (RunErr.indexError, wDocEmptyCalcs) :
        Except (RunErr × ResultDoc) ResultDoc) ≠ .ok wDocEmptyCalcs :=
  ⟨rfl, fun hcontra => nomatch hcontra⟩

/-- Witness for the amended C6 at concrete inputs: missing
`calcs_reversed` is a no-op; empty `calcs_reversed` raises. -/
theorem offload_missing_vs_empty_calcs_witness :
    offloadField true "dos" "dos_fs" wSerOk wBlobOk wDocNoCalcs = (.ok wDocNoCalcs, [])
    ∧ offloadField true "bandstructure" "bandstructure_fs" wSerOk wBlobOk wDocEmptyCalcs
      = (.error (.indexError, wDocEmptyCalcs), []) :=
  ⟨(offload_missing_vs_empty_calcs "dos" "dos_fs" wSerOk wBlobOk wDocNoCalcs).1 rfl,
   (offload_missing_vs_empty_calcs "bandstructure" "bandstructure_fs" wSerOk wBlobOk
     wDocEmptyCalcs).2 rfl⟩

/-- Claim C2 (code bug): with `calc_loc` set to a name that occurs in the
location history but no `calc_loc_name` key in the task, the code raises
`KeyError("calc_loc_name")` (line 61 compares against the undeclared
`self["calc_loc_name"]`, not against `self["calc_loc"]`) instead of
returning the matching record's path `"/path/1"` as the docstring and the
claim state. -/
theorem resolve_name_selector_keyerror :
    resolveCalcDir none (some (.str "relax1")) none [⟨"relax1", "/path/1"⟩] "/cwd"
      = .error (.keyError "calc_loc_name")
    ∧ (Except.error (RunErr.keyError "calc_loc_name") : Except RunErr String)
      ≠ .ok "/path/1" :=
  ⟨rfl, fun hcontra => nomatch hcontra⟩

/-- Claim C7, amended: with a truthy non-string `calc_loc` the resolver
returns the path of the last (most recent) record regardless of name; but
on an empty history it fails with the IndexError-equivalent of
`fw_spec["calc_locs"][-1]` — it does not signal `NoLocationHistory`. -/
theorem resolve_flag_selector_last (cln : Option String)
    (locs : List LocationRecord) (cwd : String) :
    (∀ h : locs ≠ [],
      resolveCalcDir none (some (.flag true)) cln locs cwd = .ok ((locs.getLast h).path))
    ∧ (locs = [] →
      resolveCalcDir none (some (.flag true)) cln locs cwd = .error .indexError) := by
  constructor
  · intro h
    simp [resolveCalcDir, CalcLocVal.truthy, List.getLast?_eq_getLast _ h]
  · intro h
    subst h
    rfl

/-- Counterexample to C7 as stated: on an empty history the resolution
yields the IndexError-equivalent, which is not the `NoLocationHistory`
signal the claim asserts. -/
theorem resolve_flag_empty_counterexample :
    resolveCalcDir none (some (.flag true)) none ([] : List LocationRecord) "/cwd"
      = .error .indexError
    ∧ RunErr.indexError ≠ RunErr.noLocationHistory :=
  ⟨rfl, by decide⟩

/-- Witness for the amended C7 at a concrete input: the most recent
record's path is returned regardless of names. -/
theorem resolve_flag_selector_last_witness :
    resolveCalcDir none (some (.flag true)) none [⟨"a", "/p1"⟩, ⟨"b", "/p2"⟩] "/cwd"
      = .ok "/p2" :=
  (resolve_flag_selector_last none [⟨"a", "/p1"⟩, ⟨"b", "/p2"⟩] "/cwd").1 (by decide)

/-- Claim C3: whenever a run completes, the reported
`defuse_children` flag equals the negation of
`success = (document.state == "successful")`, computed purely from the
assimilated document's own `state` field, and identically for
`VaspToDbTask` and `ToDbTask` on both the store-persistence and the
local-file paths (the quantification over `db_file` covers both paths). -/
theorem defuse_children_from_state (p : VaspToDbParams) (env : RunEnv)
    (dir : String) (out : RunOutput)
    (q : ToDbParams) (env2 : ToDbEnv) (dir2 : String) (out2 : RunOutput)
    (h1 : resolveCalcDir p.calc_dir p.calc_loc p.calc_loc_name env.calc_locs env.cwd = .ok dir)
    (h2 : (vaspToDbRun p env).fst = .ok out)
    (h3 : resolveCalcDir q.calc_dir q.calc_loc q.calc_loc_name env2.calc_locs env2.cwd = .ok dir2)
    (h4 : (toDbRun q env2).fst = .ok out2) :
    out.defuse_children = !((env.assimilate dir).state == "successful")
    ∧ out2.defuse_children
      = !((q.drone.cls.construct.assimilateFn dir2).state == "successful") := by
  constructor
  · have hph : (vaspPersistPhase p env (env.assimilate dir)).fst = .ok out := by
      simpa [vaspToDbRun, h1] using h2
    have hd := vaspPersistPhase_ok_defuse p env (env.assimilate dir) out hph
    simpa [bne] using hd
  · have hph : (toDbPersistPhase q env2 (q.drone.cls.construct.assimilateFn dir2)).fst
        = .ok out2 := by
      simpa [toDbRun, h3] using h4
    have hd := toDbPersistPhase_ok_defuse q env2 (q.drone.cls.construct.assimilateFn dir2) out2 hph
    simpa [bne] using hd

/-- Witness for C3 at concrete inputs: both tasks, local path, successful
document. -/
theorem defuse_children_from_state_witness :
    wOutLocal.defuse_children = !((wEnv.assimilate "/calc").state == "successful")
    ∧ wOutLocal.defuse_children
      = !((wToDbParams.drone.cls.construct.assimilateFn "/calc").state == "successful") :=
  defuse_children_from_state wParamsLocal wEnv "/calc" wOutLocal
    wToDbParams wToDbEnv "/calc" wOutLocal rfl rfl rfl rfl

/-- Claim C4: with a store configured (truthy `db_file`) and the
spec-modelled store `specDb n`, a completed run reports exactly the
identifier returned by the document store's insert, and that identifier
is non-empty — with no assumption on the document's `state`, so this
holds whether or not the run was successful; without a store the reported
identifier is absent. -/
theorem assigned_id_from_store_insert (p : VaspToDbParams) (env : RunEnv)
    (n : Nat) (out : RunOutput) :
    (env.db = specDb n → truthyOptStr (envChk p.db_file env.ctx) = true →
      (vaspToDbRun p env).fst = .ok out →
      out.assigned_id = some ("oid" ++ toString n) ∧ ("oid" ++ toString n) ≠ "")
    ∧ (truthyOptStr (envChk p.db_file env.ctx) = false →
      (vaspToDbRun p env).fst = .ok out → out.assigned_id = none) := by
  constructor
  · intro hdb ht h
    cases hr : resolveCalcDir p.calc_dir p.calc_loc p.calc_loc_name env.calc_locs env.cwd with
    | error e => simp [vaspToDbRun, hr] at h
    | ok dir =>
      have hph : (vaspPersistPhase p env (env.assimilate dir)).fst = .ok out := by
        simpa [vaspToDbRun, hr] using h
      exact ⟨vaspPersistPhase_store_assigned p env (env.assimilate dir) out n hdb ht hph,
        string_append_ne_empty "oid" (toString n) (by decide)⟩
  · intro ht h
    cases hr : resolveCalcDir p.calc_dir p.calc_loc p.calc_loc_name env.calc_locs env.cwd with
    | error e => simp [vaspToDbRun, hr] at h
    | ok dir =>
      have hph : (vaspPersistPhase p env (env.assimilate dir)).fst = .ok out := by
        simpa [vaspToDbRun, hr] using h
      exact vaspPersistPhase_local_assigned p env (env.assimilate dir) out ht hph

/-- Witness for C4 at concrete inputs: the store path yields the store's
non-empty identifier, the local path yields none. -/
theorem assigned_id_from_store_insert_witness :
    (wOutDb.assigned_id = some ("oid" ++ toString 0) ∧ ("oid" ++ toString 0) ≠ "")
    ∧ wOutLocal.assigned_id = none :=
  ⟨(assigned_id_from_store_insert wParamsDb wEnv 0 wOutDb).1 rfl rfl rfl,
   (assigned_id_from_store_insert wParamsLocal wEnv 0 wOutLocal).2 rfl rfl⟩

/-- Claim C8: a run without a store configured (falsy resolved `db_file`)
makes no blob-store and no document-store call — the offload blocks are
skipped entirely — and writes exactly one local file, `task.json`,
containing the serialised document; identically for `VaspToDbTask` and
`ToDbTask`. -/
theorem local_path_no_store_calls (p : VaspToDbParams) (env : RunEnv) (dir : String)
    (q : ToDbParams) (env2 : ToDbEnv) (dir2 : String)
    (h1 : resolveCalcDir p.calc_dir p.calc_loc p.calc_loc_name env.calc_locs env.cwd = .ok dir)
    (h2 : truthyOptStr (envChk p.db_file env.ctx) = false)
    (h3 : resolveCalcDir q.calc_dir q.calc_loc q.calc_loc_name env2.calc_locs env2.cwd = .ok dir2)
    (h4 : truthyOptStr (envChk q.db_file env2.ctx) = false) :
    vaspToDbRun p env
      = (.ok { stored_task_id := (env.assimilate dir).task_id, defuse_children := (env.assimilate dir).state != "successful", assigned_id := none },
         { Effects.empty with filesWritten := [("task.json", env.dumpDoc (env.assimilate dir))] })
    ∧ toDbRun q env2
      = (.ok { stored_task_id := (q.drone.cls.construct.assimilateFn dir2).task_id, defuse_children := (q.drone.cls.construct.assimilateFn dir2).state != "successful", assigned_id := none },
         { Effects.empty with filesWritten := [("task.json", env2.dumpDoc (q.drone.cls.construct.assimilateFn dir2))] }) := by
  constructor
  · simp [vaspToDbRun, h1, vaspPersistPhase, h2]
  · simp [toDbRun, h3, toDbPersistPhase, h4]

/-- Witness for C8 at concrete inputs: both tasks on the local path. -/
theorem local_path_no_store_calls_witness :
    vaspToDbRun wParamsLocal wEnv
      = (.ok wOutLocal, { Effects.empty with filesWritten := [("task.json", "DOC")] })
    ∧ toDbRun wToDbParams wToDbEnv
      = (.ok wOutLocal, { Effects.empty with filesWritten := [("task.json", "DOC")] }) :=
  local_path_no_store_calls wParamsLocal wEnv "/calc" wToDbParams wToDbEnv "/calc"
    rfl rfl rfl rfl

/-- Claim C9: `ToDbTask.run_task` reconstructs the drone from the class of
the passed-in instance with no arguments (`self['drone'].__class__()`), so
two configurations that differ only in `options` or `additional_fields`
(and even in the passed-in instance's own configured behaviour, as long as
its class is the same) run identically. -/
theorem todb_options_no_effect (p : ToDbParams) (env : ToDbEnv)
    (o1 o2 a1 a2 : Option Dict) (g : String → ResultDoc) :
    toDbRun { p with options := o1, additional_fields := a1 } env
      = toDbRun { p with options := o2, additional_fields := a2 } env
    ∧ toDbRun p env = toDbRun { p with drone := { cls := p.drone.cls, assimilateFn := g } } env :=
  ⟨rfl, rfl⟩
